import Mathlib

/-!
Verification of the client-side form controller in
`src/mcp_manager_ui/ui/static/js/main.js`.

The DOM is modelled shallowly: a document is a partial map from element IDs
to element states (`Dom`), an element state records the pieces of DOM state
the script reads or writes (`style.display`, `required`, the class list and
the child list), and each JS function becomes a Lean function on `Dom`.
`console.warn` diagnostics are returned as a list of strings alongside the
updated document.
-/

/-- A DOM node, as produced by the `innerHTML` templates of
`addArgumentField` / `addEnvVarField`: tag name, class list, attribute list
(name/value pairs) and children, or a text node. -/
inductive Node where
  | elt (tag : String) (classes : List String) (attrs : List (String × String))
      (children : List Node)
  | text (s : String)
deriving Repr

/-- The state of an element addressed by ID: the properties the script
touches (`style.display`, `required`) plus its class list and children. -/
structure Elem where
  display : String := ""
  required : Bool := false
  classes : List String := []
  children : List Node := []

/-- A document: a partial map from element ID to element state.
`document.getElementById(i)` is `d i`. -/
abbrev Dom := String → Option Elem

/-- Mutation of the element with ID `i`, if present (JS pattern
`if (el) el.prop = v`); a missing element is left missing. -/
def updateElem (d : Dom) (i : String) (f : Elem → Elem) : Dom :=
  fun k => if k = i then (d i).map f else d k

theorem updateElem_self (d : Dom) (i : String) (f : Elem → Elem) :
    updateElem d i f i = (d i).map f := by
  simp [updateElem]

theorem updateElem_ne (d : Dom) (i : String) (f : Elem → Elem) {k : String}
    (h : k ≠ i) : updateElem d i f k = d k := by
  simp [updateElem, h]

theorem updateElem_isSome (d : Dom) (i : String) (f : Elem → Elem) (k : String) :
    ((updateElem d i f k).isSome) = (d k).isSome := by
  unfold updateElem
  by_cases h : k = i
  · subst h; cases d k <;> simp
  · simp [h]

/-- `toggleServerTypeSpecificFields(serverType, formPrefix)` from
`main.js` lines 13-42.  Looks up the two section containers and the two
required-sensitive inputs, emits a `console.warn` for each missing
container, unconditionally hides both sections and clears `required` on
both inputs, then shows the section matching `serverType` (and marks its
input required) when that section container exists.  Returns the updated
document and the warnings. -/
def toggleServerTypeSpecificFields (serverType formPrefix : String) (d : Dom) :
    Dom × List String :=
  let stdioId := formPrefix ++ "stdio-fields-container"
  let httpId := formPrefix ++ "http-fields-container"
  let cmdId := formPrefix ++ "command"
  let urlId := formPrefix ++ "url"
  let warns :=
    (if (d stdioId).isSome then []
     else ["[toggleServerTypeSpecificFields] Element not found: " ++ stdioId]) ++
    (if (d httpId).isSome then []
     else ["[toggleServerTypeSpecificFields] Element not found: " ++ httpId])
  let d0 := updateElem d stdioId (fun e => { e with display := "none" })
  let d0 := updateElem d0 httpId (fun e => { e with display := "none" })
  let d0 := updateElem d0 cmdId (fun e => { e with required := false })
  let d0 := updateElem d0 urlId (fun e => { e with required := false })
  let d1 :=
    if serverType = "stdio" ∧ (d stdioId).isSome then
      updateElem (updateElem d0 stdioId (fun e => { e with display := "block" }))
        cmdId (fun e => { e with required := true })
    else if (serverType = "sse" ∨ serverType = "streamable_http") ∧ (d httpId).isSome then
      updateElem (updateElem d0 httpId (fun e => { e with display := "block" }))
        urlId (fun e => { e with required := true })
    else d0
  (d1, warns)

/-- The ID suffixes the controller appends to a form prefix (§6 of the
element-ID contract). -/
def SUFS : List String :=
  ["server_type", "stdio-fields-container", "http-fields-container",
   "command", "url", "args-list-container", "env-vars-list-container"]

theorem sufs_suffix_eq : ∀ s ∈ SUFS, ∀ t ∈ SUFS, s.data <:+ t.data → s = t := by
  decide

theorem appended_id_inj {p q s t : String} (hs : s ∈ SUFS) (ht : t ∈ SUFS)
    (h : p ++ s = q ++ t) : p = q ∧ s = t := by
  have hd : p.data ++ s.data = q.data ++ t.data := by
    have := congrArg String.data h
    simpa [String.data_append] using this
  have hst : s = t := by
    rcases List.append_eq_append_iff.mp hd with ⟨a, _, hb⟩ | ⟨c, _, hc⟩
    · exact (sufs_suffix_eq t ht s hs ⟨a, hb.symm⟩).symm
    · exact sufs_suffix_eq s hs t ht ⟨c, hc.symm⟩
  subst hst
  refine ⟨?_, rfl⟩
  have hpq : p.data = q.data := List.append_cancel_right hd
  cases p; cases q; exact congrArg String.mk hpq

theorem id_ne_same_fp {fp : String} {s t : String} (hs : s ∈ SUFS) (ht : t ∈ SUFS)
    (h : s ≠ t) : fp ++ s ≠ fp ++ t := by
  intro he
  exact h (appended_id_inj hs ht he).2

theorem toggle_stdio (v fp : String) (d : Dom) :
    (toggleServerTypeSpecificFields v fp d).1 (fp ++ "stdio-fields-container")
      = (d (fp ++ "stdio-fields-container")).map
          (fun e => { e with display := if v = "stdio" then "block" else "none" }) := by
  have h1 : fp ++ "stdio-fields-container" ≠ fp ++ "http-fields-container" :=
    id_ne_same_fp (by decide) (by decide) (by decide)
  have h2 : fp ++ "stdio-fields-container" ≠ fp ++ "command" :=
    id_ne_same_fp (by decide) (by decide) (by decide)
  have h3 : fp ++ "stdio-fields-container" ≠ fp ++ "url" :=
    id_ne_same_fp (by decide) (by decide) (by decide)
  by_cases hv1 : v = "stdio" <;> by_cases hv2 : v = "sse" <;>
    by_cases hv3 : v = "streamable_http" <;>
    rcases hd : d (fp ++ "stdio-fields-container") with _ | es <;>
    rcases hh : d (fp ++ "http-fields-container") with _ | eh <;>
    simp [toggleServerTypeSpecificFields, updateElem, hv1, hv2, hv3, hd, hh, h1, h2, h3]

theorem toggle_http (v fp : String) (d : Dom) :
    (toggleServerTypeSpecificFields v fp d).1 (fp ++ "http-fields-container")
      = (d (fp ++ "http-fields-container")).map
          (fun e =>
            { e with display :=
                if v = "sse" ∨ v = "streamable_http" then "block" else "none" }) := by
  have h1 : fp ++ "http-fields-container" ≠ fp ++ "stdio-fields-container" :=
    id_ne_same_fp (by decide) (by decide) (by decide)
  have h2 : fp ++ "http-fields-container" ≠ fp ++ "command" :=
    id_ne_same_fp (by decide) (by decide) (by decide)
  have h3 : fp ++ "http-fields-container" ≠ fp ++ "url" :=
    id_ne_same_fp (by decide) (by decide) (by decide)
  by_cases hv1 : v = "stdio" <;> by_cases hv2 : v = "sse" <;>
    by_cases hv3 : v = "streamable_http" <;>
    rcases hd : d (fp ++ "stdio-fields-container") with _ | es <;>
    rcases hh : d (fp ++ "http-fields-container") with _ | eh <;>
    simp [toggleServerTypeSpecificFields, updateElem, hv1, hv2, hv3, hd, hh, h1, h2, h3]

theorem toggle_command (v fp : String) (d : Dom) :
    (toggleServerTypeSpecificFields v fp d).1 (fp ++ "command")
      = (d (fp ++ "command")).map
          (fun e =>
            { e with required :=
                decide (v = "stdio") && (d (fp ++ "stdio-fields-container")).isSome }) := by
  have h1 : fp ++ "command" ≠ fp ++ "stdio-fields-container" :=
    id_ne_same_fp (by decide) (by decide) (by decide)
  have h2 : fp ++ "command" ≠ fp ++ "http-fields-container" :=
    id_ne_same_fp (by decide) (by decide) (by decide)
  have h3 : fp ++ "command" ≠ fp ++ "url" :=
    id_ne_same_fp (by decide) (by decide) (by decide)
  by_cases hv1 : v = "stdio" <;> by_cases hv2 : v = "sse" <;>
    by_cases hv3 : v = "streamable_http" <;>
    rcases hd : d (fp ++ "stdio-fields-container") with _ | es <;>
    rcases hh : d (fp ++ "http-fields-container") with _ | eh <;>
    rcases hc : d (fp ++ "command") with _ | ec <;>
    simp [toggleServerTypeSpecificFields, updateElem, hv1, hv2, hv3, hd, hh, hc, h1, h2, h3]

theorem toggle_url (v fp : String) (d : Dom) :
    (toggleServerTypeSpecificFields v fp d).1 (fp ++ "url")
      = (d (fp ++ "url")).map
          (fun e =>
            { e with required :=
                decide (v = "sse" ∨ v = "streamable_http")
                  && (d (fp ++ "http-fields-container")).isSome }) := by
  have h1 : fp ++ "url" ≠ fp ++ "stdio-fields-container" :=
    id_ne_same_fp (by decide) (by decide) (by decide)
  have h2 : fp ++ "url" ≠ fp ++ "http-fields-container" :=
    id_ne_same_fp (by decide) (by decide) (by decide)
  have h3 : fp ++ "url" ≠ fp ++ "command" :=
    id_ne_same_fp (by decide) (by decide) (by decide)
  by_cases hv1 : v = "stdio" <;> by_cases hv2 : v = "sse" <;>
    by_cases hv3 : v = "streamable_http" <;>
    rcases hd : d (fp ++ "stdio-fields-container") with _ | es <;>
    rcases hh : d (fp ++ "http-fields-container") with _ | eh <;>
    rcases hu : d (fp ++ "url") with _ | eu <;>
    simp [toggleServerTypeSpecificFields, updateElem, hv1, hv2, hv3, hd, hh, hu, h1, h2, h3]

theorem toggle_frame (v fp : String) (d : Dom) {k : String}
    (h1 : k ≠ fp ++ "stdio-fields-container") (h2 : k ≠ fp ++ "http-fields-container")
    (h3 : k ≠ fp ++ "command") (h4 : k ≠ fp ++ "url") :
    (toggleServerTypeSpecificFields v fp d).1 k = d k := by
  by_cases hv1 : v = "stdio" <;> by_cases hv2 : v = "sse" <;>
    by_cases hv3 : v = "streamable_http" <;>
    rcases hd : d (fp ++ "stdio-fields-container") with _ | es <;>
    rcases hh : d (fp ++ "http-fields-container") with _ | eh <;>
    simp [toggleServerTypeSpecificFields, updateElem, hv1, hv2, hv3, hd, hh, h1, h2, h3, h4]

theorem toggle_warns (v fp : String) (d : Dom) :
    (toggleServerTypeSpecificFields v fp d).2
      = (if (d (fp ++ "stdio-fields-container")).isSome then []
         else ["[toggleServerTypeSpecificFields] Element not found: "
                ++ (fp ++ "stdio-fields-container")]) ++
        (if (d (fp ++ "http-fields-container")).isSome then []
         else ["[toggleServerTypeSpecificFields] Element not found: "
                ++ (fp ++ "http-fields-container")]) := rfl

/-- Whether the element with ID `i` is shown: present and with
`style.display` other than `"none"` (absent elements are not visible). -/
def visibleB (d : Dom) (i : String) : Bool :=
  match d i with
  | some e => e.display != "none"
  | none => false

/-- Whether the element with ID `i` carries the `required` attribute
(absent elements are not required). -/
def requiredB (d : Dom) (i : String) : Bool :=
  match d i with
  | some e => e.required
  | none => false

/-- Claim C1: when both section containers and both inputs are present,
after `toggleServerTypeSpecificFields(variant, formPrefix)` the stdio section
is visible iff the variant is `stdio`, the http section is visible iff the
variant is `sse` or `streamable_http`, each input is required iff its
section is visible, and any other variant leaves both sections hidden and
both inputs optional. -/
theorem toggle_visibility_requiredness (v fp : String) (d : Dom)
    (hs : (d (fp ++ "stdio-fields-container")).isSome = true)
    (hh : (d (fp ++ "http-fields-container")).isSome = true)
    (hc : (d (fp ++ "command")).isSome = true)
    (hu : (d (fp ++ "url")).isSome = true) :
    (visibleB (toggleServerTypeSpecificFields v fp d).1 (fp ++ "stdio-fields-container") = true
        ↔ v = "stdio")
    ∧ (visibleB (toggleServerTypeSpecificFields v fp d).1 (fp ++ "http-fields-container") = true
        ↔ (v = "sse" ∨ v = "streamable_http"))
    ∧ requiredB (toggleServerTypeSpecificFields v fp d).1 (fp ++ "command")
        = visibleB (toggleServerTypeSpecificFields v fp d).1 (fp ++ "stdio-fields-container")
    ∧ requiredB (toggleServerTypeSpecificFields v fp d).1 (fp ++ "url")
        = visibleB (toggleServerTypeSpecificFields v fp d).1 (fp ++ "http-fields-container")
    ∧ (v ≠ "stdio" → v ≠ "sse" → v ≠ "streamable_http" →
        visibleB (toggleServerTypeSpecificFields v fp d).1 (fp ++ "stdio-fields-container") = false
        ∧ visibleB (toggleServerTypeSpecificFields v fp d).1 (fp ++ "http-fields-container") = false
        ∧ requiredB (toggleServerTypeSpecificFields v fp d).1 (fp ++ "command") = false
        ∧ requiredB (toggleServerTypeSpecificFields v fp d).1 (fp ++ "url") = false) := by
  obtain ⟨es, hes⟩ := Option.isSome_iff_exists.mp hs
  obtain ⟨eh, heh⟩ := Option.isSome_iff_exists.mp hh
  obtain ⟨ec, hec⟩ := Option.isSome_iff_exists.mp hc
  obtain ⟨eu, heu⟩ := Option.isSome_iff_exists.mp hu
  by_cases hv1 : v = "stdio" <;> by_cases hv2 : v = "sse" <;>
    by_cases hv3 : v = "streamable_http" <;>
    simp [visibleB, requiredB, toggle_stdio, toggle_http, toggle_command, toggle_url,
      hes, heh, hec, heu, hv1, hv2, hv3]

/-- Concrete document for witnesses: all four variant-sensitive elements of
prefix `w-` present, nothing else. -/
def domFourPresent : Dom := fun k =>
  if k = "w-stdio-fields-container" ∨ k = "w-http-fields-container"
      ∨ k = "w-command" ∨ k = "w-url" then some {} else none

theorem toggle_visibility_requiredness_witness :
    (domFourPresent ("w-" ++ "stdio-fields-container")).isSome = true
    ∧ (domFourPresent ("w-" ++ "http-fields-container")).isSome = true
    ∧ (domFourPresent ("w-" ++ "command")).isSome = true
    ∧ (domFourPresent ("w-" ++ "url")).isSome = true
    ∧ ((visibleB (toggleServerTypeSpecificFields "sse" "w-" domFourPresent).1
          ("w-" ++ "stdio-fields-container") = true ↔ ("sse" : String) = "stdio")
      ∧ (visibleB (toggleServerTypeSpecificFields "sse" "w-" domFourPresent).1
          ("w-" ++ "http-fields-container") = true
            ↔ (("sse" : String) = "sse" ∨ ("sse" : String) = "streamable_http"))
      ∧ requiredB (toggleServerTypeSpecificFields "sse" "w-" domFourPresent).1 ("w-" ++ "command")
          = visibleB (toggleServerTypeSpecificFields "sse" "w-" domFourPresent).1
              ("w-" ++ "stdio-fields-container")
      ∧ requiredB (toggleServerTypeSpecificFields "sse" "w-" domFourPresent).1 ("w-" ++ "url")
          = visibleB (toggleServerTypeSpecificFields "sse" "w-" domFourPresent).1
              ("w-" ++ "http-fields-container")
      ∧ (("sse" : String) ≠ "stdio" → ("sse" : String) ≠ "sse"
          → ("sse" : String) ≠ "streamable_http" →
          visibleB (toggleServerTypeSpecificFields "sse" "w-" domFourPresent).1
              ("w-" ++ "stdio-fields-container") = false
          ∧ visibleB (toggleServerTypeSpecificFields "sse" "w-" domFourPresent).1
              ("w-" ++ "http-fields-container") = false
          ∧ requiredB (toggleServerTypeSpecificFields "sse" "w-" domFourPresent).1
              ("w-" ++ "command") = false
          ∧ requiredB (toggleServerTypeSpecificFields "sse" "w-" domFourPresent).1
              ("w-" ++ "url") = false)) :=
  ⟨by decide, by decide, by decide, by decide,
    toggle_visibility_requiredness "sse" "w-" domFourPresent
      (by decide) (by decide) (by decide) (by decide)⟩

/-- Claim C7: calling `toggleServerTypeSpecificFields` twice in a row with
the same arguments yields exactly the same final document as calling it
once, for every variant, prefix and starting document. -/
theorem toggle_idempotent (v fp : String) (d : Dom) :
    (toggleServerTypeSpecificFields v fp (toggleServerTypeSpecificFields v fp d).1).1
      = (toggleServerTypeSpecificFields v fp d).1 := by
  funext k
  by_cases k1 : k = fp ++ "stdio-fields-container"
  · subst k1
    rw [toggle_stdio, toggle_stdio]
    rcases d (fp ++ "stdio-fields-container") with _ | e <;> simp
  · by_cases k2 : k = fp ++ "http-fields-container"
    · subst k2
      rw [toggle_http, toggle_http]
      rcases d (fp ++ "http-fields-container") with _ | e <;> simp
    · by_cases k3 : k = fp ++ "command"
      · subst k3
        rw [toggle_command, toggle_command, toggle_stdio]
        rcases hd : d (fp ++ "stdio-fields-container") with _ | es <;>
          rcases hc : d (fp ++ "command") with _ | ec <;> simp
      · by_cases k4 : k = fp ++ "url"
        · subst k4
          rw [toggle_url, toggle_url, toggle_http]
          rcases hh : d (fp ++ "http-fields-container") with _ | eh <;>
            rcases hu : d (fp ++ "url") with _ | eu <;> simp
        · rw [toggle_frame v fp _ k1 k2 k3 k4, toggle_frame v fp _ k1 k2 k3 k4]

/-- Claim C9: toggling the variant for one prefix never mutates any element
namespaced under a different prefix: for distinct prefixes `pA ≠ pB`, every
element whose ID is `pB` followed by one of the controller's ID suffixes is
left exactly as it was. -/
theorem toggle_cross_instance_frame (pA pB v : String) (d : Dom) (hne : pA ≠ pB)
    (s : String)
    (hs : s ∈ (["server_type", "stdio-fields-container", "http-fields-container",
                "command", "url"] : List String)) :
    (toggleServerTypeSpecificFields v pA d).1 (pB ++ s) = d (pB ++ s) := by
  have hsS : s ∈ SUFS := by
    simp only [List.mem_cons, List.mem_singleton, List.not_mem_nil, or_false] at hs
    rcases hs with rfl | rfl | rfl | rfl | rfl <;> decide
  apply toggle_frame
  · intro heq
    exact hne ((appended_id_inj hsS (by decide) heq).1.symm)
  · intro heq
    exact hne ((appended_id_inj hsS (by decide) heq).1.symm)
  · intro heq
    exact hne ((appended_id_inj hsS (by decide) heq).1.symm)
  · intro heq
    exact hne ((appended_id_inj hsS (by decide) heq).1.symm)

theorem toggle_cross_instance_frame_witness :
    ("a-" : String) ≠ "w-"
    ∧ ("url" : String) ∈ (["server_type", "stdio-fields-container",
        "http-fields-container", "command", "url"] : List String)
    ∧ (toggleServerTypeSpecificFields "stdio" "a-" domFourPresent).1 ("w-" ++ "url")
        = domFourPresent ("w-" ++ "url") :=
  ⟨by decide, by decide,
    toggle_cross_instance_frame "a-" "w-" "stdio" domFourPresent (by decide) "url" (by decide)⟩

/-- A document with only a command input (prefix `p-`): the stdio section
container is absent. -/
def domCommandOnly : Dom := fun k =>
  if k = "p-command" then some {} else none

/-- Claim C2, counterexample: with the command input present but the stdio
section container absent, `toggleServerTypeSpecificFields("stdio", "p-")`
leaves the command input NOT required — the required-marking is coupled to
the presence of the section container (line 31 tests
`serverType === 'stdio' && stdioFieldsContainer` before line 33 runs). -/
theorem stdio_required_skipped_counterexample :
    (domCommandOnly ("p-" ++ "command")).isSome = true
    ∧ (domCommandOnly ("p-" ++ "stdio-fields-container")).isSome = false
    ∧ ((toggleServerTypeSpecificFields "stdio" "p-" domCommandOnly).1
        ("p-" ++ "command")).map Elem.required = some false := by
  refine ⟨by decide, by decide, ?_⟩
  rw [toggle_command]
  decide

/-- Claim C2 as amended: when `toggleServerTypeSpecificFields` is called
with variant `stdio` and the command input present, the command input ends
up required iff the stdio section container is also present; when the
container is absent the command input is left not required. -/
theorem stdio_required_needs_container (fp : String) (d : Dom)
    (hc : (d (fp ++ "command")).isSome = true) :
    ((toggleServerTypeSpecificFields "stdio" fp d).1 (fp ++ "command")).map Elem.required
      = some ((d (fp ++ "stdio-fields-container")).isSome) := by
  obtain ⟨e, he⟩ := Option.isSome_iff_exists.mp hc
  rw [toggle_command, he]
  cases hx : (d (fp ++ "stdio-fields-container")).isSome <;> simp [hx]

theorem stdio_required_needs_container_witness :
    (domCommandOnly ("p-" ++ "command")).isSome = true
    ∧ ((toggleServerTypeSpecificFields "stdio" "p-" domCommandOnly).1
        ("p-" ++ "command")).map Elem.required
      = some ((domCommandOnly ("p-" ++ "stdio-fields-container")).isSome) :=
  ⟨by decide, stdio_required_needs_container "p-" domCommandOnly (by decide)⟩

/-- Whether a node carries a CSS class (`element.classList.contains`). -/
def hasClassB : Node → String → Bool
  | .elt _ cs _ _, c => cs.contains c
  | .text _, _ => false

/-- The children of a node (text nodes have none). -/
def childrenOf : Node → List Node
  | .elt _ _ _ ch => ch
  | .text _ => []

mutual
/-- All nodes of a subtree, the root included (document order). -/
def subnodeOf : Node → List Node
  | .elt t cs a ch => .elt t cs a ch :: subnodesList ch
  | .text s => [.text s]
/-- All nodes of a forest, the roots included (document order). -/
def subnodesList : List Node → List Node
  | [] => []
  | n :: rest => subnodeOf n ++ subnodesList rest
end

/-- The strict descendants of a node. -/
def properSubnodes (n : Node) : List Node := subnodesList (childrenOf n)

theorem subnodeOf_eq (n : Node) : subnodeOf n = n :: properSubnodes n := by
  cases n <;> simp [subnodeOf, properSubnodes, childrenOf, subnodesList]

theorem subnodesList_cons (n : Node) (rest : List Node) :
    subnodesList (n :: rest) = n :: (properSubnodes n ++ subnodesList rest) := by
  simp [subnodesList, subnodeOf_eq]

/-- The chain of nodes from the target of `path` (navigating by child
index from `n`) back up to `n`: target first, `n` last.  This is the
ancestor chain `closest` walks inside the subtree rooted at `n`. -/
def Node.chainTo : Node → List Nat → Option (List Node)
  | n, [] => some [n]
  | .elt t cs a ch, i :: p =>
      match ch[i]? with
      | some child => (Node.chainTo child p).map (fun l => l ++ [Node.elt t cs a ch])
      | none => none
  | .text _, _ :: _ => none

/-- Attribute lookup on a node attribute list. -/
def attrValue (attrs : List (String × String)) (k : String) : Option String :=
  (attrs.find? (fun kv => kv.1 == k)).map (fun kv => kv.2)

mutual
/-- The `name` attributes of the `<input type="text">` elements of a
subtree, in document order: these are the submission field names a row
contributes. -/
def textInputNames : Node → List String
  | .elt tag _ attrs ch =>
      (if tag = "input" ∧ attrValue attrs "type" = some "text" then
        (match attrValue attrs "name" with
         | some nm => [nm]
         | none => [])
       else [])
        ++ textInputNamesList ch
  | .text _ => []
/-- `textInputNames` over a forest. -/
def textInputNamesList : List Node → List String
  | [] => []
  | n :: rest => textInputNames n ++ textInputNamesList rest
end

/-- The row subtree built by `addArgumentField` (main.js lines 55-67):
class list from `classList.add('row','dynamic-field-row')` and the
`innerHTML` template. -/
def argumentRowNode : Node :=
  .elt "div" ["row", "dynamic-field-row"] [("style", "margin-bottom:5px")]
    [ .elt "div" ["input-field", "col", "s10", "m10", "l10"]
        [("style", "margin-top:0; margin-bottom:0;")]
        [ .elt "input" [] [("type", "text"), ("name", "arg_item[]"),
            ("placeholder", "Аргумент")] [] ],
      .elt "div" ["col", "s2", "m2", "l2"] [("style", "padding-top: 10px;")]
        [ .elt "button" ["btn-floating", "btn-small", "waves-effect", "waves-light",
              "red", "lighten-1"]
            [("type", "button"), ("onclick", "removeDynamicField(this)"),
             ("title", "Удалить аргумент")]
            [ .elt "i" ["material-icons"] [] [ .text "remove" ] ] ] ]

/-- The row subtree built by `addEnvVarField` (main.js lines 82-98). -/
def envVarRowNode : Node :=
  .elt "div" ["row", "dynamic-field-row"] [("style", "margin-bottom:5px")]
    [ .elt "div" ["input-field", "col", "s5", "m5", "l5"]
        [("style", "margin-top:0; margin-bottom:0;")]
        [ .elt "input" [] [("type", "text"), ("name", "env_key[]"),
            ("placeholder", "Имя переменной")] [] ],
      .elt "div" ["input-field", "col", "s5", "m5", "l5"]
        [("style", "margin-top:0; margin-bottom:0;")]
        [ .elt "input" [] [("type", "text"), ("name", "env_value[]"),
            ("placeholder", "Значение")] [] ],
      .elt "div" ["col", "s2", "m2", "l2"] [("style", "padding-top: 10px;")]
        [ .elt "button" ["btn-floating", "btn-small", "waves-effect", "waves-light",
              "red", "lighten-1"]
            [("type", "button"), ("onclick", "removeDynamicField(this)"),
             ("title", "Удалить переменную")]
            [ .elt "i" ["material-icons"] [] [ .text "remove" ] ] ] ]

/-- `addArgumentField(formPrefix)` from main.js lines 48-69: abort with a
`console.warn` when the container is missing, otherwise append the new
argument row as last child. -/
def addArgumentField (formPrefix : String) (d : Dom) : Dom × List String :=
  if (d (formPrefix ++ "args-list-container")).isNone then
    (d, ["[addArgumentField] Container not found: " ++ formPrefix ++ "args-list-container"])
  else
    (updateElem d (formPrefix ++ "args-list-container")
      (fun e => { e with children := e.children ++ [argumentRowNode] }), [])

/-- `addEnvVarField(formPrefix)` from main.js lines 75-99. -/
def addEnvVarField (formPrefix : String) (d : Dom) : Dom × List String :=
  if (d (formPrefix ++ "env-vars-list-container")).isNone then
    (d, ["[addEnvVarField] Container not found: " ++ formPrefix ++ "env-vars-list-container"])
  else
    (updateElem d (formPrefix ++ "env-vars-list-container")
      (fun e => { e with children := e.children ++ [envVarRowNode] }), [])

/-- `removeDynamicField(buttonElement)` from main.js lines 105-113,
resolution part: `buttonElement.closest('.dynamic-field-row')` inspects the
element itself and then each ancestor in order (`chain` is the element
followed by its ancestors), and returns the first carrying the class.  The
result is the node that `fieldRow.remove()` detaches; when no node matches,
a `console.warn` diagnostic is emitted instead. -/
def removeDynamicField (chain : List Node) : Option Node × List String :=
  match chain.find? (fun n => hasClassB n "dynamic-field-row") with
  | some fieldRow => (some fieldRow, [])
  | none => (none, ["[removeDynamicField] Could not find parent .dynamic-field-row to remove."])

/-- The state effect of `fieldRow.remove()` when the resolved row is the
child at position `i` of the container with ID `cid`. -/
def removeDynamicFieldAt (d : Dom) (cid : String) (i : Nat) : Dom :=
  updateElem d cid (fun e => { e with children := e.children.eraseIdx i })

/-- The two repeatable-field kinds of the spec
(`addRepeatableField(kind, prefix)`). -/
inductive FieldKind where
  | argument
  | envPair

def rowNodeOf : FieldKind → Node
  | .argument => argumentRowNode
  | .envPair => envVarRowNode

def repeatableContainerId : FieldKind → String → String
  | .argument, fp => fp ++ "args-list-container"
  | .envPair, fp => fp ++ "env-vars-list-container"

/-- The spec-level dispatcher over the two source insertion functions. -/
def addRepeatableField : FieldKind → String → Dom → Dom × List String
  | .argument, fp, d => addArgumentField fp d
  | .envPair, fp, d => addEnvVarField fp d

theorem mem_subnodesList_of_mem {c : Node} {ch : List Node} (h : c ∈ ch) :
    c ∈ subnodesList ch ∧ ∀ x ∈ properSubnodes c, x ∈ subnodesList ch := by
  induction ch with
  | nil => exact absurd h (List.not_mem_nil c)
  | cons a rest ih =>
    rw [subnodesList_cons]
    rcases List.mem_cons.mp h with rfl | hmem
    · exact ⟨List.mem_cons_self _ _, fun x hx => by simp [hx]⟩
    · obtain ⟨h1, h2⟩ := ih hmem
      exact ⟨by simp [h1], fun x hx => by simp [h2 x hx]⟩

theorem chainTo_shape : ∀ (p : List Nat) (n : Node) (l : List Node),
    Node.chainTo n p = some l →
    ∃ l2, l = l2 ++ [n] ∧ ∀ x ∈ l2, x ∈ properSubnodes n := by
  intro p
  induction p with
  | nil =>
    intro n l h
    simp only [Node.chainTo, Option.some.injEq] at h
    exact ⟨[], by simp [h.symm]⟩
  | cons i p ih =>
    intro n l h
    cases n with
    | text s => simp [Node.chainTo] at h
    | elt t cs a ch =>
      rw [Node.chainTo] at h
      rcases hch : ch[i]? with _ | child <;> rw [hch] at h
      · simp at h
      · rw [Option.map_eq_some'] at h
        obtain ⟨l0, hl0, rfl⟩ := h
        obtain ⟨l2, rfl, hmem⟩ := ih child l0 hl0
        refine ⟨l2 ++ [child], by simp, ?_⟩
        intro x hx
        have hc : child ∈ ch := List.getElem?_mem hch
        obtain ⟨h1, h2⟩ := mem_subnodesList_of_mem hc
        show x ∈ subnodesList ch
        rcases List.mem_append.mp hx with hx | hx
        · exact h2 x (hmem x hx)
        · rw [List.mem_singleton.mp hx]
          exact h1

theorem find?_append_first {α} (pB : α → Bool) :
    ∀ (l : List α) (r : α) (rest : List α), (∀ x ∈ l, pB x = false) → pB r = true →
    List.find? pB (l ++ r :: rest) = some r := by
  intro l r rest
  induction l with
  | nil => intro _ hr; simp [List.find?, hr]
  | cons x xs ih =>
    intro hl hr
    have hx := hl x (List.mem_cons_self x xs)
    rw [List.cons_append, List.find?_cons_of_neg _ (by simp [hx])]
    exact ih (fun y hy => hl y (List.mem_cons_of_mem x hy)) hr

theorem eraseIdx_concat {α} (l : List α) (a : α) : (l ++ [a]).eraseIdx l.length = l := by
  induction l with
  | nil => rfl
  | cons x xs ih => simp [List.eraseIdx, List.length_cons, ih]

/-- Claim C3, counterexample: the text inputs of the inserted rows carry
the name attributes `arg_item[]`, `env_key[]` and `env_value[]` —
including the trailing brackets, which the browser submits verbatim — so
no inserted row contains an input whose submission field name is
`arg_item`, `env_key` or `env_value`. -/
theorem row_input_names_counterexample :
    ¬ ((textInputNames argumentRowNode).count "arg_item" = 1
        ∧ (textInputNames envVarRowNode).count "env_key" = 1
        ∧ (textInputNames envVarRowNode).count "env_value" = 1) := by
  decide

/-- Claim C3 as amended: every row inserted by the argument-kind insertion
contains exactly one text input, with submission field name `arg_item[]`,
and every row inserted by the env-pair-kind insertion contains exactly two
text inputs, with submission field names `env_key[]` and `env_value[]` in
that order. -/
theorem row_input_names :
    textInputNames argumentRowNode = ["arg_item[]"]
    ∧ textInputNames envVarRowNode = ["env_key[]", "env_value[]"] := by
  decide

/-- Claim C6: for either kind, with the container present, inserting a
repeatable row appends exactly that row as last child; `closest` from any
node inside the inserted row resolves to the inserted row (whatever sits
above it in the document); and detaching that row — the child at the old
child count — restores the document exactly, so the child count and all
other children are as before the insertion. -/
theorem add_remove_inverse (kind : FieldKind) (fp : String) (d : Dom) (e : Elem)
    (hcont : d (repeatableContainerId kind fp) = some e) :
    ((addRepeatableField kind fp d).1 (repeatableContainerId kind fp)
        = some { e with children := e.children ++ [rowNodeOf kind] })
    ∧ (∀ (path : List Nat) (chain ancestors : List Node),
        Node.chainTo (rowNodeOf kind) path = some chain →
        List.find? (fun n => hasClassB n "dynamic-field-row") (chain ++ ancestors)
          = some (rowNodeOf kind))
    ∧ removeDynamicFieldAt (addRepeatableField kind fp d).1
        (repeatableContainerId kind fp) e.children.length = d := by
  have hadd : (addRepeatableField kind fp d).1
      = updateElem d (repeatableContainerId kind fp)
          (fun e2 => { e2 with children := e2.children ++ [rowNodeOf kind] }) := by
    cases kind <;> simp only [repeatableContainerId] at hcont <;>
      simp [addRepeatableField, addArgumentField, addEnvVarField,
        repeatableContainerId, rowNodeOf, hcont]
  refine ⟨?_, ?_, ?_⟩
  · rw [hadd, updateElem_self, hcont]
    rfl
  · intro path chain ancestors hchain
    obtain ⟨l2, rfl, hmem⟩ := chainTo_shape path _ chain hchain
    have hrow : hasClassB (rowNodeOf kind) "dynamic-field-row" = true := by
      cases kind <;> decide
    have hno : ∀ x ∈ properSubnodes (rowNodeOf kind),
        hasClassB x "dynamic-field-row" = false := by
      cases kind <;> decide
    rw [List.append_assoc, List.singleton_append]
    exact find?_append_first _ l2 _ _ (fun x hx => hno x (hmem x hx)) hrow
  · rw [hadd]
    funext k
    by_cases hk : k = repeatableContainerId kind fp
    · subst hk
      obtain ⟨ed, er, ecs, ech⟩ := e
      simp [removeDynamicFieldAt, updateElem, hcont, eraseIdx_concat]
    · simp [removeDynamicFieldAt, updateElem, hk]

/-- A document with only an (empty) argument-list container for prefix
`p-`. -/
def domArgsContainer : Dom := fun k =>
  if k = "p-args-list-container" then some {} else none

theorem add_remove_inverse_witness :
    domArgsContainer (repeatableContainerId FieldKind.argument "p-") = some {}
    ∧ removeDynamicFieldAt
        (addRepeatableField FieldKind.argument "p-" domArgsContainer).1
        (repeatableContainerId FieldKind.argument "p-") ({} : Elem).children.length
      = domArgsContainer :=
  ⟨rfl, (add_remove_inverse FieldKind.argument "p-" domArgsContainer {} rfl).2.2⟩

/-- Claim C10: `closest` inspects the starting element itself first, so
calling `removeDynamicField` on an element that itself carries the
`dynamic-field-row` class detaches that element itself; and the diagnostic
branch fires exactly when neither the element nor any ancestor carries the
class. -/
theorem closest_matches_self (n : Node) (ancestors : List Node) :
    (hasClassB n "dynamic-field-row" = true →
      removeDynamicField (n :: ancestors) = (some n, []))
    ∧ ((removeDynamicField (n :: ancestors)).2 ≠ []
        ↔ ∀ m ∈ n :: ancestors, hasClassB m "dynamic-field-row" = false) := by
  constructor
  · intro h
    simp [removeDynamicField, List.find?, h]
  · unfold removeDynamicField
    rcases hf : List.find? (fun x => hasClassB x "dynamic-field-row") (n :: ancestors)
      with _ | r
    · constructor
      · intro _ m hm
        have := List.find?_eq_none.mp hf m hm
        simpa using this
      · intro _
        simp
    · have hr : hasClassB r "dynamic-field-row" = true := by
        simpa using List.find?_some hf
      have hmem : r ∈ n :: ancestors := List.mem_of_find?_eq_some hf
      constructor
      · intro hne
        exact absurd rfl hne
      · intro hall
        exfalso
        rw [hall r hmem] at hr
        exact Bool.false_ne_true hr

theorem closest_matches_self_witness :
    hasClassB argumentRowNode "dynamic-field-row" = true
    ∧ removeDynamicField [argumentRowNode] = (some argumentRowNode, []) :=
  ⟨by decide, (closest_matches_self argumentRowNode []).1 (by decide)⟩

/-- JS `String.prototype.replace` with a string pattern replaces only the
FIRST occurrence of the pattern (list form, leftmost scan). -/
def replaceFirstList (pat repl : List Char) : List Char → List Char
  | [] => []
  | c :: rest =>
      if pat.isPrefixOf (c :: rest) then repl ++ (c :: rest).drop pat.length
      else c :: replaceFirstList pat repl rest

/-- JS `s.replace(pat, repl)` for a string pattern: replace the first
occurrence of `pat` in `s` (the string unchanged when `pat` does not
occur). -/
def jsReplaceFirst (s pat repl : String) : String :=
  String.mk (replaceFirstList pat.data repl.data s.data)

/-- The prefix the page-load orchestrator derives for a discovered
discriminant control (main.js line 127:
`selectElement.id.replace('server_type', '')`). -/
def derivedFormPrefixOf (id : String) : String :=
  jsReplaceFirst id "server_type" ""

/-- Claim C4, counterexample: for the ID `server_typeXserver_type` — which
ends with the literal suffix `server_type` — the derivation removes the
FIRST occurrence, producing `Xserver_type`, not the suffix-stripped
`server_typeX`. -/
theorem derive_first_occurrence_counterexample :
    ("server_typeXserver_type" : String) = "server_typeX" ++ "server_type"
    ∧ derivedFormPrefixOf "server_typeXserver_type" = "Xserver_type"
    ∧ ("Xserver_type" : String) ≠ "server_typeX" := by
  refine ⟨by decide, by decide, by decide⟩

theorem replaceFirstList_concat (pat : List Char) :
    ∀ l : List Char,
    (∀ i, i < l.length → (pat.isPrefixOf ((l ++ pat).drop i)) = false) →
    replaceFirstList pat [] (l ++ pat) = l := by
  intro l
  induction l with
  | nil =>
    intro _
    cases hp : pat with
    | nil => rfl
    | cons c pt =>
      have hself : pat.isPrefixOf pat = true := by
        rw [List.isPrefixOf_iff_prefix]
      rw [List.nil_append]
      rw [hp] at hself
      simp [replaceFirstList, hself, List.drop_length]
  | cons c l2 ih =>
    intro h
    have h0 : pat.isPrefixOf (c :: (l2 ++ pat)) = false := by
      have := h 0 (by simp)
      simpa using this
    have h2 : ∀ i, i < l2.length → pat.isPrefixOf ((l2 ++ pat).drop i) = false := by
      intro i hi
      have := h (i + 1) (by simpa using Nat.succ_lt_succ hi)
      simpa [List.drop_succ_cons] using this
    rw [List.cons_append]
    simp only [replaceFirstList, h0, Bool.false_eq_true, if_false]
    rw [ih h2]

/-- Claim C4 as amended: the orchestrator derives the prefix by removing
the FIRST occurrence of `server_type` from the control ID (JS
`String.replace` with a string pattern); for an ID of the form
`p ++ "server_type"` in which `server_type` does not also occur at an
earlier position, this coincides with stripping the trailing suffix, i.e.
the derived prefix is `p`. -/
theorem derivedFormPrefix_strips_when_unique (p : String)
    (h : ∀ i, i < p.data.length →
      ("server_type".data.isPrefixOf ((p.data ++ "server_type".data).drop i)) = false) :
    derivedFormPrefixOf (p ++ "server_type") = p := by
  unfold derivedFormPrefixOf jsReplaceFirst
  have hdata : (p ++ "server_type").data = p.data ++ "server_type".data :=
    String.data_append p "server_type"
  rw [hdata]
  have hrep : ("" : String).data = [] := rfl
  rw [hrep, replaceFirstList_concat "server_type".data p.data h]

theorem derivedFormPrefix_strips_when_unique_witness :
    (∀ i, i < ("single-add-" : String).data.length →
      ("server_type".data.isPrefixOf
        ((("single-add-" : String).data ++ "server_type".data).drop i)) = false)
    ∧ derivedFormPrefixOf ("single-add-" ++ "server_type") = "single-add-" :=
  ⟨by decide, derivedFormPrefix_strips_when_unique "single-add-" (by decide)⟩

theorem updateElem_absent (d : Dom) (i : String) (f : Elem → Elem) (h : d i = none) :
    updateElem d i f = d := by
  funext k
  unfold updateElem
  by_cases hk : k = i
  · subst hk; simp [h]
  · simp [hk]

theorem visibleB_congr {D d : Dom} {k : String} (h : D k = d k) :
    visibleB D k = visibleB d k := by
  unfold visibleB
  rw [h]

theorem requiredB_congr {D d : Dom} {k : String} (h : D k = d k) :
    requiredB D k = requiredB d k := by
  unfold requiredB
  rw [h]

theorem visibleB_updateElem_keep (d : Dom) (i : String) (f : Elem → Elem)
    (hf : ∀ e, (f e).display = e.display) (k : String) :
    visibleB (updateElem d i f) k = visibleB d k := by
  unfold visibleB updateElem
  by_cases hk : k = i
  · subst hk; cases d k <;> simp [hf]
  · simp [hk]

theorem requiredB_updateElem_keep (d : Dom) (i : String) (f : Elem → Elem)
    (hf : ∀ e, (f e).required = e.required) (k : String) :
    requiredB (updateElem d i f) k = requiredB d k := by
  unfold requiredB updateElem
  by_cases hk : k = i
  · subst hk; cases d k <;> simp [hf]
  · simp [hk]

/-- All four variant-sensitive elements of a prefix are present. -/
def fourPresent (d : Dom) (fp : String) : Prop :=
  (d (fp ++ "stdio-fields-container")).isSome = true
  ∧ (d (fp ++ "http-fields-container")).isSome = true
  ∧ (d (fp ++ "command")).isSome = true
  ∧ (d (fp ++ "url")).isSome = true

/-- The invariant of spec §3 for one form instance: at most one of the two
sections is visible, and each required flag mirrors the visibility of its
section. -/
def sectionInvariant (d : Dom) (fp : String) : Prop :=
  ¬ (visibleB d (fp ++ "stdio-fields-container") = true
      ∧ visibleB d (fp ++ "http-fields-container") = true)
  ∧ requiredB d (fp ++ "command") = visibleB d (fp ++ "stdio-fields-container")
  ∧ requiredB d (fp ++ "url") = visibleB d (fp ++ "http-fields-container")

theorem sectionInvariant_of_keep {D d : Dom} (fp : String)
    (hv : ∀ k, visibleB D k = visibleB d k)
    (hr : ∀ k, requiredB D k = requiredB d k)
    (hinv : sectionInvariant d fp) : sectionInvariant D fp := by
  unfold sectionInvariant
  simp only [hv, hr]
  exact hinv

theorem toggle_frame_other_fp (v pA fp : String) (d : Dom) (hne : pA ≠ fp)
    {s : String} (hs : s ∈ SUFS) :
    (toggleServerTypeSpecificFields v pA d).1 (fp ++ s) = d (fp ++ s) := by
  apply toggle_frame <;>
    exact fun heq => hne ((appended_id_inj hs (by decide) heq).1).symm

/-- Claim C5: after any call to `toggleServerTypeSpecificFields` on a form
instance whose four variant-sensitive elements are present, at most one of
the two sections is visible and each required flag equals the visibility of
its section; and this invariant is preserved by every other operation of
the controller (a toggle of a different prefix, either row insertion, and
row removal). -/
theorem section_invariant_maintained :
    (∀ v fp d, fourPresent d fp →
      sectionInvariant (toggleServerTypeSpecificFields v fp d).1 fp)
    ∧ (∀ v pA fp d, pA ≠ fp → sectionInvariant d fp →
      sectionInvariant (toggleServerTypeSpecificFields v pA d).1 fp)
    ∧ (∀ pA fp d, sectionInvariant d fp →
      sectionInvariant (addArgumentField pA d).1 fp)
    ∧ (∀ pA fp d, sectionInvariant d fp →
      sectionInvariant (addEnvVarField pA d).1 fp)
    ∧ (∀ cid i fp d, sectionInvariant d fp →
      sectionInvariant (removeDynamicFieldAt d cid i) fp) := by
  refine ⟨?_, ?_, ?_, ?_, ?_⟩
  · rintro v fp d ⟨hs, hh, hc, hu⟩
    obtain ⟨es, hes⟩ := Option.isSome_iff_exists.mp hs
    obtain ⟨eh, heh⟩ := Option.isSome_iff_exists.mp hh
    obtain ⟨ec, hec⟩ := Option.isSome_iff_exists.mp hc
    obtain ⟨eu, heu⟩ := Option.isSome_iff_exists.mp hu
    by_cases hv1 : v = "stdio" <;> by_cases hv2 : v = "sse" <;>
      by_cases hv3 : v = "streamable_http" <;>
      simp [sectionInvariant, visibleB, requiredB, toggle_stdio, toggle_http,
        toggle_command, toggle_url, hes, heh, hec, heu, hv1, hv2, hv3]
  · intro v pA fp d hne hinv
    unfold sectionInvariant
    rw [visibleB_congr (toggle_frame_other_fp v pA fp d hne (by decide)),
        visibleB_congr (toggle_frame_other_fp v pA fp d hne (by decide)),
        requiredB_congr (toggle_frame_other_fp v pA fp d hne (by decide)),
        requiredB_congr (toggle_frame_other_fp v pA fp d hne (by decide))]
    exact hinv
  · intro pA fp d hinv
    unfold addArgumentField
    by_cases hc : (d (pA ++ "args-list-container")).isNone
    · simpa [hc] using hinv
    · simp only [hc, if_false]
      exact sectionInvariant_of_keep fp
        (visibleB_updateElem_keep d _ _ (fun e => rfl))
        (requiredB_updateElem_keep d _ _ (fun e => rfl)) hinv
  · intro pA fp d hinv
    unfold addEnvVarField
    by_cases hc : (d (pA ++ "env-vars-list-container")).isNone
    · simpa [hc] using hinv
    · simp only [hc, if_false]
      exact sectionInvariant_of_keep fp
        (visibleB_updateElem_keep d _ _ (fun e => rfl))
        (requiredB_updateElem_keep d _ _ (fun e => rfl)) hinv
  · intro cid i fp d hinv
    unfold removeDynamicFieldAt
    exact sectionInvariant_of_keep fp
      (visibleB_updateElem_keep d _ _ (fun e => rfl))
      (requiredB_updateElem_keep d _ _ (fun e => rfl)) hinv

theorem section_invariant_maintained_witness :
    fourPresent domFourPresent "w-"
    ∧ sectionInvariant
        (toggleServerTypeSpecificFields "stdio" "w-" domFourPresent).1 "w-" :=
  ⟨by refine ⟨by decide, by decide, by decide, by decide⟩,
    section_invariant_maintained.1 "stdio" "w-" domFourPresent
      ⟨by decide, by decide, by decide, by decide⟩⟩

/-- The unguarded JS statement `el.style.display = v` where `el` is the
lookup result for ID `i`: throws a TypeError when the element is null. -/
def assignDisplayE (d : Dom) (i : String) (v : String) : Except String Dom :=
  match d i with
  | none => .error ("TypeError: cannot set display of null element " ++ i)
  | some e => .ok (fun k => if k = i then some { e with display := v } else d k)

/-- The unguarded JS statement `el.required = b`: throws on null. -/
def assignRequiredE (d : Dom) (i : String) (b : Bool) : Except String Dom :=
  match d i with
  | none => .error ("TypeError: cannot set required of null element " ++ i)
  | some e => .ok (fun k => if k = i then some { e with required := b } else d k)

/-- The unguarded JS statement `el.appendChild(n)`: throws on null. -/
def appendChildE (d : Dom) (i : String) (n : Node) : Except String Dom :=
  match d i with
  | none => .error ("TypeError: cannot appendChild on null element " ++ i)
  | some e =>
      .ok (fun k => if k = i then some { e with children := e.children ++ [n] } else d k)

theorem assignDisplayE_eq (d : Dom) (i v : String) (e : Elem) (he : d i = some e) :
    assignDisplayE d i v = .ok (updateElem d i (fun e2 => { e2 with display := v })) := by
  unfold assignDisplayE updateElem
  rw [he]
  rfl

theorem assignRequiredE_eq (d : Dom) (i : String) (b : Bool) (e : Elem)
    (he : d i = some e) :
    assignRequiredE d i b = .ok (updateElem d i (fun e2 => { e2 with required := b })) := by
  unfold assignRequiredE updateElem
  rw [he]
  rfl

theorem appendChildE_eq (d : Dom) (i : String) (n : Node) (e : Elem) (he : d i = some e) :
    appendChildE d i n
      = .ok (updateElem d i (fun e2 => { e2 with children := e2.children ++ [n] })) := by
  unfold appendChildE updateElem
  rw [he]
  rfl

theorem ok_bind {ε α β : Type} (a : α) (f : α → Except ε β) :
    (Except.ok a : Except ε α).bind f = f a := rfl

theorem guardedAssignDisplayE (dOrig dCur : Dom) (i v : String)
    (hp : (dCur i).isSome = (dOrig i).isSome) :
    (if (dOrig i).isSome = true then assignDisplayE dCur i v else Except.ok dCur)
      = .ok (updateElem dCur i (fun e => { e with display := v })) := by
  rcases he : dCur i with _ | e
  · rw [he] at hp
    rw [if_neg (by rw [← hp]; simp), updateElem_absent dCur i _ he]
  · rw [if_pos (by rw [← hp, he]; rfl)]
    exact assignDisplayE_eq dCur i v e he

theorem guardedAssignRequiredE (dOrig dCur : Dom) (i : String) (b : Bool)
    (hp : (dCur i).isSome = (dOrig i).isSome) :
    (if (dOrig i).isSome = true then assignRequiredE dCur i b else Except.ok dCur)
      = .ok (updateElem dCur i (fun e => { e with required := b })) := by
  rcases he : dCur i with _ | e
  · rw [he] at hp
    rw [if_neg (by rw [← hp]; simp), updateElem_absent dCur i _ he]
  · rw [if_pos (by rw [← hp, he]; rfl)]
    exact assignRequiredE_eq dCur i b e he

/-- `toggleServerTypeSpecificFields` transcribed with explicit null-deref
exceptions: every property assignment goes through `assign...E` (which
throws on a null reference) and sits behind exactly the null-checks the
source has; the element references and their truthiness are captured once
at entry, as in the source. -/
def toggleServerTypeSpecificFieldsE (serverType formPrefix : String) (d : Dom) :
    Except String Dom :=
  let stdioId := formPrefix ++ "stdio-fields-container"
  let httpId := formPrefix ++ "http-fields-container"
  let cmdId := formPrefix ++ "command"
  let urlId := formPrefix ++ "url"
  let hasStdio := (d stdioId).isSome
  let hasHttp := (d httpId).isSome
  let hasCmd := (d cmdId).isSome
  let hasUrl := (d urlId).isSome
  (if hasStdio then assignDisplayE d stdioId "none" else .ok d).bind (fun da =>
  (if hasHttp then assignDisplayE da httpId "none" else .ok da).bind (fun db =>
  (if hasCmd then assignRequiredE db cmdId false else .ok db).bind (fun dc =>
  (if hasUrl then assignRequiredE dc urlId false else .ok dc).bind (fun dd =>
  if serverType = "stdio" ∧ hasStdio then
    (assignDisplayE dd stdioId "block").bind (fun de =>
      if hasCmd then assignRequiredE de cmdId true else .ok de)
  else if (serverType = "sse" ∨ serverType = "streamable_http") ∧ hasHttp then
    (assignDisplayE dd httpId "block").bind (fun de =>
      if hasUrl then assignRequiredE de urlId true else .ok de)
  else .ok dd))))

/-- `addArgumentField` transcribed with an explicit null-deref exception on
`container.appendChild`. -/
def addArgumentFieldE (formPrefix : String) (d : Dom) :
    Except String (Dom × List String) :=
  if (d (formPrefix ++ "args-list-container")).isNone then
    .ok (d, ["[addArgumentField] Container not found: " ++ formPrefix
              ++ "args-list-container"])
  else
    (appendChildE d (formPrefix ++ "args-list-container") argumentRowNode).map
      (fun d2 => (d2, []))

/-- `addEnvVarField` transcribed with an explicit null-deref exception. -/
def addEnvVarFieldE (formPrefix : String) (d : Dom) :
    Except String (Dom × List String) :=
  if (d (formPrefix ++ "env-vars-list-container")).isNone then
    .ok (d, ["[addEnvVarField] Container not found: " ++ formPrefix
              ++ "env-vars-list-container"])
  else
    (appendChildE d (formPrefix ++ "env-vars-list-container") envVarRowNode).map
      (fun d2 => (d2, []))

/-- `removeDynamicField` transcribed with the `fieldRow.remove()` call
(which would throw on null) reachable only behind the null-check. -/
def removeDynamicFieldE (chain : List Node) : Except String (Option Node × List String) :=
  let fieldRow := chain.find? (fun n => hasClassB n "dynamic-field-row")
  if h : fieldRow.isSome then
    .ok (some (fieldRow.get h), [])
  else
    .ok (none,
      ["[removeDynamicField] Could not find parent .dynamic-field-row to remove."])

theorem branchE_eq (v : String) (dOrig dd : Dom) (stdioId httpId cmdId urlId : String)
    (hps : (dd stdioId).isSome = (dOrig stdioId).isSome)
    (hph : (dd httpId).isSome = (dOrig httpId).isSome)
    (hpc : (dd cmdId).isSome = (dOrig cmdId).isSome)
    (hpu : (dd urlId).isSome = (dOrig urlId).isSome) :
    (if v = "stdio" ∧ (dOrig stdioId).isSome = true then
      (assignDisplayE dd stdioId "block").bind (fun de =>
        if (dOrig cmdId).isSome = true then assignRequiredE de cmdId true
        else Except.ok de)
    else if (v = "sse" ∨ v = "streamable_http") ∧ (dOrig httpId).isSome = true then
      (assignDisplayE dd httpId "block").bind (fun de =>
        if (dOrig urlId).isSome = true then assignRequiredE de urlId true
        else Except.ok de)
    else Except.ok dd)
    = .ok (if v = "stdio" ∧ (dOrig stdioId).isSome = true then
        updateElem (updateElem dd stdioId (fun e => { e with display := "block" }))
          cmdId (fun e => { e with required := true })
      else if (v = "sse" ∨ v = "streamable_http") ∧ (dOrig httpId).isSome = true then
        updateElem (updateElem dd httpId (fun e => { e with display := "block" }))
          urlId (fun e => { e with required := true })
      else dd) := by
  by_cases hA : v = "stdio" ∧ (dOrig stdioId).isSome = true
  · rw [if_pos hA, if_pos hA]
    obtain ⟨e, he⟩ := Option.isSome_iff_exists.mp (hps.trans hA.2)
    rw [assignDisplayE_eq dd stdioId "block" e he, ok_bind]
    rw [guardedAssignRequiredE dOrig _ cmdId true
      (by rw [updateElem_isSome]; exact hpc)]
  · rw [if_neg hA, if_neg hA]
    by_cases hB : (v = "sse" ∨ v = "streamable_http") ∧ (dOrig httpId).isSome = true
    · rw [if_pos hB, if_pos hB]
      obtain ⟨e, he⟩ := Option.isSome_iff_exists.mp (hph.trans hB.2)
      rw [assignDisplayE_eq dd httpId "block" e he, ok_bind]
      rw [guardedAssignRequiredE dOrig _ urlId true
        (by rw [updateElem_isSome]; exact hpu)]
    · rw [if_neg hB, if_neg hB]

theorem toggleE_ok (v fp : String) (d : Dom) :
    toggleServerTypeSpecificFieldsE v fp d
      = .ok (toggleServerTypeSpecificFields v fp d).1 := by
  simp only [toggleServerTypeSpecificFieldsE, toggleServerTypeSpecificFields]
  rw [guardedAssignDisplayE d d (fp ++ "stdio-fields-container") "none" rfl, ok_bind]
  rw [guardedAssignDisplayE d _ (fp ++ "http-fields-container") "none"
    (by rw [updateElem_isSome]), ok_bind]
  rw [guardedAssignRequiredE d _ (fp ++ "command") false
    (by rw [updateElem_isSome, updateElem_isSome]), ok_bind]
  rw [guardedAssignRequiredE d _ (fp ++ "url") false
    (by rw [updateElem_isSome, updateElem_isSome, updateElem_isSome]), ok_bind]
  exact branchE_eq v d _ _ _ _ _
    (by rw [updateElem_isSome, updateElem_isSome, updateElem_isSome, updateElem_isSome])
    (by rw [updateElem_isSome, updateElem_isSome, updateElem_isSome, updateElem_isSome])
    (by rw [updateElem_isSome, updateElem_isSome, updateElem_isSome, updateElem_isSome])
    (by rw [updateElem_isSome, updateElem_isSome, updateElem_isSome, updateElem_isSome])

theorem addArgumentFieldE_ok (fp : String) (d : Dom) :
    addArgumentFieldE fp d = .ok (addArgumentField fp d) := by
  unfold addArgumentFieldE addArgumentField
  rcases he : d (fp ++ "args-list-container") with _ | e
  · simp [he]
  · simp only [he, Option.isNone_some, Bool.false_eq_true, if_false]
    rw [appendChildE_eq d _ argumentRowNode e he]
    rfl

theorem addEnvVarFieldE_ok (fp : String) (d : Dom) :
    addEnvVarFieldE fp d = .ok (addEnvVarField fp d) := by
  unfold addEnvVarFieldE addEnvVarField
  rcases he : d (fp ++ "env-vars-list-container") with _ | e
  · simp [he]
  · simp only [he, Option.isNone_some, Bool.false_eq_true, if_false]
    rw [appendChildE_eq d _ envVarRowNode e he]
    rfl

theorem removeDynamicFieldE_ok (chain : List Node) :
    removeDynamicFieldE chain = .ok (removeDynamicField chain) := by
  unfold removeDynamicFieldE removeDynamicField
  rcases hf : chain.find? (fun n => hasClassB n "dynamic-field-row") with _ | r <;>
    simp [hf]

/-- A document with both section containers present (prefix `p2-`) but the
command and url inputs absent. -/
def domContainersOnly : Dom := fun k =>
  if k = "p2-stdio-fields-container" ∨ k = "p2-http-fields-container" then some {}
  else none

/-- Claim C8, counterexample: NOT every lookup failure is logged.  With
both section containers present but the command and url inputs absent,
`toggleServerTypeSpecificFields("stdio", "p2-")` performs failing lookups
of the command and url inputs (main.js lines 17-18) yet emits no
diagnostic at all: only the two container lookups (lines 21-22) are ever
warned about, so these lookup failures are skipped silently. -/
theorem silent_input_lookup_counterexample :
    (domContainersOnly ("p2-" ++ "stdio-fields-container")).isSome = true
    ∧ (domContainersOnly ("p2-" ++ "http-fields-container")).isSome = true
    ∧ (domContainersOnly ("p2-" ++ "command")).isSome = false
    ∧ (domContainersOnly ("p2-" ++ "url")).isSome = false
    ∧ (toggleServerTypeSpecificFields "stdio" "p2-" domContainersOnly).2 = [] := by
  refine ⟨by decide, by decide, by decide, by decide, by decide⟩

/-- Claim C8 as amended: no operation of the controller throws on a
missing element — the exception-explicit transcriptions always return `ok`
with exactly the guarded result; the operation degrades to a no-op for the
affected part (insertion and removal leave the document unchanged); a
diagnostic is logged for each missing section container in the visibility
toggle, for a missing list container in row insertion and for a missing
row ancestor in removal — but NOT for the toggle's command/url input
lookups, whose failures are skipped silently: the toggle's warning log is
exactly the warnings of the two container lookups.  Unrelated work is
never aborted: the outcome on the http-side elements depends only on the
http-side elements, and the outcome on the stdio-side elements only on the
stdio-side elements, so a missing element of one side cannot affect the
other. -/
theorem operations_never_throw :
    (∀ v fp d, toggleServerTypeSpecificFieldsE v fp d
        = .ok (toggleServerTypeSpecificFields v fp d).1)
    ∧ (∀ fp d, addArgumentFieldE fp d = .ok (addArgumentField fp d))
    ∧ (∀ fp d, addEnvVarFieldE fp d = .ok (addEnvVarField fp d))
    ∧ (∀ chain, removeDynamicFieldE chain = .ok (removeDynamicField chain))
    ∧ (∀ v fp d, (d (fp ++ "stdio-fields-container")).isSome = false →
        ("[toggleServerTypeSpecificFields] Element not found: "
            ++ (fp ++ "stdio-fields-container"))
          ∈ (toggleServerTypeSpecificFields v fp d).2)
    ∧ (∀ v fp d, (d (fp ++ "http-fields-container")).isSome = false →
        ("[toggleServerTypeSpecificFields] Element not found: "
            ++ (fp ++ "http-fields-container"))
          ∈ (toggleServerTypeSpecificFields v fp d).2)
    ∧ (∀ fp d, (d (fp ++ "args-list-container")).isSome = false →
        (addArgumentField fp d).1 = d
        ∧ (addArgumentField fp d).2
            = ["[addArgumentField] Container not found: " ++ fp
                ++ "args-list-container"])
    ∧ (∀ fp d, (d (fp ++ "env-vars-list-container")).isSome = false →
        (addEnvVarField fp d).1 = d
        ∧ (addEnvVarField fp d).2
            = ["[addEnvVarField] Container not found: " ++ fp
                ++ "env-vars-list-container"])
    ∧ (∀ chain, (∀ n ∈ chain, hasClassB n "dynamic-field-row" = false) →
        removeDynamicField chain
          = (none,
             ["[removeDynamicField] Could not find parent .dynamic-field-row to remove."]))
    ∧ (∀ v fp d1 d2,
        d1 (fp ++ "http-fields-container") = d2 (fp ++ "http-fields-container") →
        d1 (fp ++ "url") = d2 (fp ++ "url") →
        (toggleServerTypeSpecificFields v fp d1).1 (fp ++ "http-fields-container")
          = (toggleServerTypeSpecificFields v fp d2).1 (fp ++ "http-fields-container")
        ∧ (toggleServerTypeSpecificFields v fp d1).1 (fp ++ "url")
          = (toggleServerTypeSpecificFields v fp d2).1 (fp ++ "url"))
    ∧ (∀ v fp d1 d2,
        d1 (fp ++ "stdio-fields-container") = d2 (fp ++ "stdio-fields-container") →
        d1 (fp ++ "command") = d2 (fp ++ "command") →
        (toggleServerTypeSpecificFields v fp d1).1 (fp ++ "stdio-fields-container")
          = (toggleServerTypeSpecificFields v fp d2).1 (fp ++ "stdio-fields-container")
        ∧ (toggleServerTypeSpecificFields v fp d1).1 (fp ++ "command")
          = (toggleServerTypeSpecificFields v fp d2).1 (fp ++ "command"))
    ∧ (∀ v fp d, (toggleServerTypeSpecificFields v fp d).2
        = (if (d (fp ++ "stdio-fields-container")).isSome then []
           else ["[toggleServerTypeSpecificFields] Element not found: "
                  ++ (fp ++ "stdio-fields-container")]) ++
          (if (d (fp ++ "http-fields-container")).isSome then []
           else ["[toggleServerTypeSpecificFields] Element not found: "
                  ++ (fp ++ "http-fields-container")])) := by
  refine ⟨toggleE_ok, addArgumentFieldE_ok, addEnvVarFieldE_ok, removeDynamicFieldE_ok,
    ?_, ?_, ?_, ?_, ?_, ?_, ?_, toggle_warns⟩
  · intro v fp d h
    rw [toggle_warns]
    simp [h]
  · intro v fp d h
    rw [toggle_warns]
    simp [h]
  · intro fp d h
    rcases he : d (fp ++ "args-list-container") with _ | e
    · simp [addArgumentField, he]
    · rw [he] at h
      simp at h
  · intro fp d h
    rcases he : d (fp ++ "env-vars-list-container") with _ | e
    · simp [addEnvVarField, he]
    · rw [he] at h
      simp at h
  · intro chain hall
    have hf : chain.find? (fun n => hasClassB n "dynamic-field-row") = none :=
      List.find?_eq_none.mpr (fun x hx => by simp [hall x hx])
    simp [removeDynamicField, hf]
  · intro v fp d1 d2 h1 h2
    constructor
    · rw [toggle_http, toggle_http, h1]
    · rw [toggle_url, toggle_url, h1, h2]
  · intro v fp d1 d2 h1 h2
    constructor
    · rw [toggle_stdio, toggle_stdio, h1]
    · rw [toggle_command, toggle_command, h1, h2]

theorem operations_never_throw_witness :
    (toggleServerTypeSpecificFieldsE "stdio" "p-" domCommandOnly
        = .ok (toggleServerTypeSpecificFields "stdio" "p-" domCommandOnly).1)
    ∧ (domCommandOnly ("p-" ++ "args-list-container")).isSome = false
    ∧ ((addArgumentField "p-" domCommandOnly).1 = domCommandOnly
        ∧ (addArgumentField "p-" domCommandOnly).2
            = ["[addArgumentField] Container not found: " ++ "p-"
                ++ "args-list-container"]) :=
  ⟨operations_never_throw.1 "stdio" "p-" domCommandOnly,
    by decide,
    operations_never_throw.2.2.2.2.2.2.1 "p-" domCommandOnly (by decide)⟩
